import Mathlib

/-
Shallow embedding of the Resolution and Normalization Engine of
kyoobit/rust_actix_geo_widget.

Embedded from src/lib.rs: the record types from the maxminddb geoip2
module that the code consumes, the normalized result structures
LookupAsnResult / LookupCityResult / LookupResult, and the functions
lookup_asn, lookup_city, get_summary and lookup.

Embedded from src/main.rs: the staleness loop of the healthcheck
handler together with its threshold constant maximum_stale_ttl.

Modelling conventions:
- The maxminddb provider (Reader::open_readfile + Reader::lookup) is
  external file I/O; a raw lookup outcome Result<T, MaxMindDBError>
  is therefore taken as an input of type Except MaxMindDBError T.
- A BTreeMap<&str, &str> of localized names is modelled as an
  association list, with get as first-match lookup.
- A Rust panic (a call to .unwrap() on None, or indexing an empty
  vector) is modelled by returning none: each embedded function that
  can panic has result type Option _ and none means the original
  code aborts with a panic instead of producing a value.
- chrono: DateTime::from_timestamp keeps the epoch seconds exactly,
  so the age (Utc::now() - build_datetime).num_seconds() is embedded
  as now - build_epoch on Int; the Display rendering of the build
  datetime is external and is taken as an input fmt : Int -> String.
- Fields of geoip2 records and of maxminddb Metadata that the source
  never reads (location, postal, registered_country, traits,
  description, ip_version, languages) are omitted.
-/

namespace GeoWidget

/-- An IPv4 or IPv6 address value, used only as an opaque lookup key
(std::net::IpAddr). -/
inductive IpAddr where
  | v4 : Nat → Nat → Nat → Nat → IpAddr
  | v6 : Nat → IpAddr
deriving DecidableEq

/-- The error type of the maxminddb crate (MaxMindDBError). -/
inductive MaxMindDBError where
  | AddressNotFoundError : String → MaxMindDBError
  | InvalidDatabaseError : String → MaxMindDBError
  | IoError : String → MaxMindDBError
  | MapError : String → MaxMindDBError
  | DecodingError : String → MaxMindDBError
deriving DecidableEq

/-- A raw ASN record (maxminddb geoip2::Asn): both fields optional. -/
structure Asn where
  autonomous_system_number : Option Nat
  autonomous_system_organization : Option String
deriving DecidableEq

/-- The city substructure of a raw City record (geoip2::city::City):
only the localized name map, itself optional. -/
structure CityNames where
  names : Option (List (String × String))
deriving DecidableEq

/-- The continent substructure of a raw City record
(geoip2::city::Continent). -/
structure Continent where
  code : Option String
  names : Option (List (String × String))
deriving DecidableEq

/-- The country substructure of a raw City record
(geoip2::city::Country); fields the source never reads are omitted. -/
structure Country where
  iso_code : Option String
  names : Option (List (String × String))
deriving DecidableEq

/-- One element of the subdivisions sequence of a raw City record
(geoip2::city::Subdivision). -/
structure Subdivision where
  iso_code : Option String
  names : Option (List (String × String))
deriving DecidableEq

/-- A raw City record (maxminddb geoip2::City); the unused fields
location, postal, registered_country and traits are omitted. -/
structure City where
  city : Option CityNames
  continent : Option Continent
  country : Option Country
  subdivisions : Option (List Subdivision)
deriving DecidableEq

/-- get on a BTreeMap of names, modelled as first-match association
list lookup. -/
def names_get (names : List (String × String)) (key : String) : Option String :=
  List.lookup key names

/-- LookupAsnResult structure (src/lib.rs lines 26-30). -/
structure LookupAsnResult where
  asn : Nat
  asn_organization : String
deriving DecidableEq

/-- Default values to be used on any error (src/lib.rs lines 40-43). -/
def asn_result_default : LookupAsnResult :=
  { asn := 0, asn_organization := "-" }

/-- lookup_asn (src/lib.rs lines 33-71).  The raw lookup outcome
reader.lookup(addr) is taken as input; the Ok branch unwraps both
optional fields of the record, so a record missing either field makes
the original code panic, modelled as none. -/
def lookup_asn (asn_lookup_result : Except MaxMindDBError Asn) :
    Option LookupAsnResult :=
  match asn_lookup_result with
  | Except.ok result => do
      let n ← result.autonomous_system_number
      let o ← result.autonomous_system_organization
      some { asn := n, asn_organization := o }
  | Except.error _ => some asn_result_default

/-- LookupCityResult structure (src/lib.rs lines 74-80). -/
structure LookupCityResult where
  city : String
  continent : String × String
  country : String × String
  subdivisions : String × String
deriving DecidableEq

/-- Default values to be used on any error (src/lib.rs lines 90-95). -/
def city_result_default : LookupCityResult :=
  { city := "-", continent := ("-", "-"), country := ("-", "-"),
    subdivisions := ("-", "-") }

/-- lookup_city (src/lib.rs lines 83-192).  The raw lookup outcome is
taken as input.  Each of the four groups is matched on None and
defaulted as in the source; inside a present group the source chains
.unwrap() calls on code / iso_code / names / get of the en key, and
subdivisions[0] indexes the vector, so any absent inner field or an
empty subdivisions vector makes the original code panic, modelled as
none. -/
def lookup_city (city_lookup_result : Except MaxMindDBError City) :
    Option LookupCityResult :=
  match city_lookup_result with
  | Except.ok result => do
      let city : String ←
        match result.city with
        | none => some "-"
        | some c => do
            let names ← c.names
            names_get names "en"
      let continent : String × String ←
        match result.continent with
        | none => some ("-", "-")
        | some continent => do
            let code ← continent.code
            let names ← continent.names
            let name ← names_get names "en"
            some (code, name)
      let country : String × String ←
        match result.country with
        | none => some ("-", "-")
        | some country => do
            let code ← country.iso_code
            let names ← country.names
            let name ← names_get names "en"
            some (code, name)
      let subdivisions : String × String ←
        match result.subdivisions with
        | none => some ("-", "-")
        | some subdivisions => do
            let first ← subdivisions.head?
            let code ← first.iso_code
            let names ← first.names
            let name ← names_get names "en"
            some (code, name)
      some { city := city, continent := continent, country := country,
             subdivisions := subdivisions }
  | Except.error _ => some city_result_default

/-- LookupResult structure (src/lib.rs lines 195-205). -/
structure LookupResult where
  address : IpAddr
  asn : Nat
  asn_organization : String
  city : String
  continent : String × String
  country : String × String
  subdivisions : String × String
  summary : String
deriving DecidableEq

/-- get_summary (src/lib.rs lines 208-222): the push_str / push
sequence building the one-line summary. -/
def get_summary (asn : LookupAsnResult) (city : LookupCityResult) : String :=
  let summary := ""
  let summary := summary ++ city.city
  let summary := summary.push ','
  let summary := summary ++ city.subdivisions.1
  let summary := summary.push '/'
  let summary := summary ++ city.country.1
  let summary := summary ++ "; "
  let summary := summary ++ asn.asn_organization
  let summary := summary ++ " ("
  let summary := summary ++ toString asn.asn
  let summary := summary ++ ");"
  summary

/-- lookup (src/lib.rs lines 225-246): the composite resolver.  The
two raw provider outcomes are taken as inputs in place of the database
file paths; a panic inside either normalization propagates as none. -/
def lookup (addr : IpAddr)
    (asn_lookup_result : Except MaxMindDBError Asn)
    (city_lookup_result : Except MaxMindDBError City) :
    Option LookupResult := do
  let asn ← lookup_asn asn_lookup_result
  let city ← lookup_city city_lookup_result
  let summary := get_summary asn city
  some { address := addr, asn := asn.asn,
         asn_organization := asn.asn_organization, city := city.city,
         continent := city.continent, country := city.country,
         subdivisions := city.subdivisions, summary := summary }

/-- maxminddb Metadata, restricted to the fields the source reads
(src/main.rs healthcheck and print_database_metadata). -/
structure Metadata where
  binary_format_major_version : Nat
  binary_format_minor_version : Nat
  build_epoch : Nat
  database_type : String
  node_count : Nat
  record_size : Nat
deriving DecidableEq

/-- Healthcheck response structure (src/main.rs lines 149-153). -/
structure HealthCheckResponse where
  is_healthy : Bool
  reason : String
deriving DecidableEq

/-- The maximum number of seconds a database should be used for
before being replaced (src/main.rs line 160): 2 weeks + 1 day. -/
def maximum_stale_ttl : Int := (604800 * 2) + 86400

/-- The database-checking loop of the healthcheck handler
(src/main.rs lines 192-230).  The mutable is_healthy / reason
accumulators with break on the first stale database are embedded as a
short-circuiting recursion; now is the epoch second of Utc::now() and
fmt is the external chrono Display rendering of the build datetime. -/
def healthcheck_loop (now : Int) (fmt : Int → String) :
    List Metadata → Bool × String
  | [] => (true, "Check of databases passed")
  | database :: rest =>
      let database_age : Int := now - (database.build_epoch : Int)
      if database_age ≥ maximum_stale_ttl then
        (false, "Database is stale (" ++ database.database_type ++
          " build date: " ++ fmt (database.build_epoch : Int) ++ ")")
      else
        healthcheck_loop now fmt rest

/-- The healthcheck handler core (src/main.rs lines 157-250): the two
metadata records are looked up from the ASN file and the City file, in
that order, and checked by the loop. -/
def healthcheck (asn_metadata city_metadata : Metadata) (now : Int)
    (fmt : Int → String) : HealthCheckResponse :=
  let databases := [asn_metadata, city_metadata]
  let r := healthcheck_loop now fmt databases
  { is_healthy := r.1, reason := r.2 }

/-- C1: the spec says that a present name map without the en key, or
an absent name map, makes the city-name selection return the sentinel
and never raise; the code instead unwraps the absent value and
panics.  Evaluating lookup_city at the failing inputs: a successful
City lookup whose record has a city name map holding only the fr key,
and one whose record has no city name map at all, both abort (none)
instead of producing a result with city set to the sentinel. -/
theorem c1_city_name_missing_locale_panics :
    lookup_city (Except.ok
      { city := some { names := some [("fr", "Paris")] },
        continent := none, country := none, subdivisions := none }) = none ∧
    lookup_city (Except.ok
      { city := some { names := none },
        continent := none, country := none, subdivisions := none }) = none := by
  exact ⟨rfl, rfl⟩

/-- C2 counterexample: a successful ASN lookup whose record carries
the number 15169 but no organization name does not yield the pair of
the number with the sentinel, as the claim states; the code panics
(none). -/
theorem c2_counterexample_org_absent_panics :
    lookup_asn (Except.ok
        { autonomous_system_number := some 15169,
          autonomous_system_organization := none }) ≠
      some { asn := 15169, asn_organization := "-" } := by
  decide

/-- C2 amended: for a successful ASN lookup whose record has both the
autonomous-system number and the organization name present, the
normalized result is exactly that number paired with that name; when
either field is absent the code unwraps a missing value and panics,
so no normalized result is produced and no field defaults
independently. -/
theorem c2_asn_fields_not_defaulted_independently :
    (∀ (n : Nat) (o : String),
      lookup_asn (Except.ok
          { autonomous_system_number := some n,
            autonomous_system_organization := some o }) =
        some { asn := n, asn_organization := o }) ∧
    (∀ (r : Asn),
      r.autonomous_system_number = none ∨
        r.autonomous_system_organization = none →
      lookup_asn (Except.ok r) = none) := by
  constructor
  · intro n o
    rfl
  · intro r h
    obtain ⟨num, org⟩ := r
    rcases h with h | h
    · cases h
      rfl
    · cases h
      cases num <;> rfl

theorem c2_witness :
    ((some 15169 : Option Nat) = none ∨ (none : Option String) = none) ∧
    lookup_asn (Except.ok
        { autonomous_system_number := some 15169,
          autonomous_system_organization := none }) = none :=
  ⟨Or.inr rfl,
   c2_asn_fields_not_defaulted_independently.2
     { autonomous_system_number := some 15169,
       autonomous_system_organization := none } (Or.inr rfl)⟩

/-- C3 counterexample: a successful City lookup whose record has a
present continent substructure with the code absent (and an en name
present) does not yield the sentinel code paired with the name, as
the claim states for absent inner fields; the code panics (none). -/
theorem c3_counterexample_absent_code_panics :
    lookup_city (Except.ok
        { city := none,
          continent := some { code := none, names := some [("en", "Europe")] },
          country := none, subdivisions := none }) ≠
      some { city := "-", continent := ("-", "Europe"),
             country := ("-", "-"), subdivisions := ("-", "-") } := by
  decide

/-- C3 amended: the four groups are resolved independently at the
group level, an absent group falling back to its own default while a
present, fully-populated group resolves to its real values (a record
with country present but continent absent yields the real country
pair and the default continent pair); but an absent code inside a
present substructure makes the code panic instead of being replaced
by the sentinel. -/
theorem c3_group_level_independent_defaulting :
    (∀ (cc cn : String),
      lookup_city (Except.ok
          { city := none, continent := none,
            country := some { iso_code := some cc, names := some [("en", cn)] },
            subdivisions := none }) =
        some { city := "-", continent := ("-", "-"), country := (cc, cn),
               subdivisions := ("-", "-") }) ∧
    (∀ (cont : Continent), cont.code = none →
      lookup_city (Except.ok
          { city := none, continent := some cont, country := none,
            subdivisions := none }) = none) := by
  constructor
  · intro cc cn
    rfl
  · intro cont h
    obtain ⟨code, names⟩ := cont
    cases h
    rfl

theorem c3_witness :
    (({ code := none, names := some [("en", "Europe")] } : Continent).code
        = none) ∧
    lookup_city (Except.ok
        { city := none,
          continent := some { code := none, names := some [("en", "Europe")] },
          country := none, subdivisions := none }) = none :=
  ⟨rfl,
   c3_group_level_independent_defaulting.2
     { code := none, names := some [("en", "Europe")] } rfl⟩

/-- C4 counterexample: a successful City lookup whose record has a
present but empty subdivisions sequence does not yield the default
subdivision pair, as the claim states for an empty sequence; the code
indexes the empty vector and panics (none). -/
theorem c4_counterexample_empty_subdivisions_panics :
    lookup_city (Except.ok
        { city := none, continent := none, country := none,
          subdivisions := some [] }) ≠
      some { city := "-", continent := ("-", "-"), country := ("-", "-"),
             subdivisions := ("-", "-") } := by
  decide

/-- C4 amended: the normalized subdivision pair is built from the
first element of the subdivisions sequence whenever the sequence is
present and that element has its iso-code, name map and en entry all
present, with elements past the first never consulted (the result is
the same for every tail); it is the default pair exactly when the
sequence is absent; a present but empty sequence makes the code index
out of bounds and panic rather than default. -/
theorem c4_subdivision_first_element_policy :
    (∀ (code name : String) (rest : List Subdivision),
      lookup_city (Except.ok
          { city := none, continent := none, country := none,
            subdivisions := some
              ({ iso_code := some code, names := some [("en", name)] } :: rest) }) =
        some { city := "-", continent := ("-", "-"), country := ("-", "-"),
               subdivisions := (code, name) }) ∧
    lookup_city (Except.ok
        { city := none, continent := none, country := none,
          subdivisions := none }) =
      some { city := "-", continent := ("-", "-"), country := ("-", "-"),
             subdivisions := ("-", "-") } ∧
    lookup_city (Except.ok
        { city := none, continent := none, country := none,
          subdivisions := some [] }) = none := by
  exact ⟨fun code name rest => rfl, rfl, rfl⟩

/-- C5: a failed raw ASN lookup normalizes to the all-default ASN
result, a failed raw City lookup normalizes to the all-default City
result, and the composite lookup on two failed raw outcomes returns
the fully-defaulted LookupResult for the queried address, so no
lookup error escapes as a fault. -/
theorem c5_error_outcomes_default_locally :
    (∀ (e : MaxMindDBError),
      lookup_asn (Except.error e) = some asn_result_default) ∧
    (∀ (e : MaxMindDBError),
      lookup_city (Except.error e) = some city_result_default) ∧
    (∀ (addr : IpAddr) (e1 e2 : MaxMindDBError),
      lookup addr (Except.error e1) (Except.error e2) =
        some { address := addr, asn := 0, asn_organization := "-",
               city := "-", continent := ("-", "-"), country := ("-", "-"),
               subdivisions := ("-", "-"), summary := "-,-/-; - (0);" }) := by
  exact ⟨fun e => rfl, fun e => rfl, fun addr e1 e2 => rfl⟩

/-- C6: the summary formatter returns exactly the concatenation of
the city name, a comma, the subdivision code, a slash, the country
code, a semicolon and space, the organization, the ASN number in
parentheses and a trailing semicolon, with fields inserted verbatim;
at the example inputs of the spec it returns exactly the example
string. -/
theorem c6_summary_fixed_grammar :
    (∀ (asn : LookupAsnResult) (city : LookupCityResult),
      get_summary asn city =
        city.city ++ "," ++ city.subdivisions.1 ++ "/" ++ city.country.1 ++
          "; " ++ asn.asn_organization ++ " (" ++ toString asn.asn ++ ");") ∧
    get_summary { asn := 15169, asn_organization := "Google LLC" }
        { city := "Mountain View", continent := ("-", "-"),
          country := ("US", "United States"),
          subdivisions := ("CA", "California") } =
      "Mountain View,CA/US; Google LLC (15169);" := by
  exact ⟨fun asn city => rfl, rfl⟩

/-- C7 counterexample: for a successful raw ASN outcome whose record
has both optional fields absent, the composite lookup panics and
returns no LookupResult at all, so it is false that the resolve
returns a LookupResult echoing the address for every outcome of the
two provider lookups. -/
theorem c7_counterexample_panicking_outcome :
    lookup (IpAddr.v4 4 3 2 1)
        (Except.ok { autonomous_system_number := none,
                     autonomous_system_organization := none })
        (Except.error (MaxMindDBError.AddressNotFoundError "not found")) =
      none := by
  rfl

/-- C7 amended: for every valid address and every outcome of the two
provider lookups for which the composite lookup produces a result
(outcomes that make the normalization unwrap an absent field produce
none instead), the address field of the produced LookupResult equals
the queried address exactly, unmodified. -/
theorem c7_address_echo_on_result :
    ∀ (addr : IpAddr) (a : Except MaxMindDBError Asn)
      (c : Except MaxMindDBError City) (r : LookupResult),
      lookup addr a c = some r → r.address = addr := by
  intro addr a c r h
  unfold lookup at h
  cases hA : lookup_asn a with
  | none =>
      rw [hA] at h
      simp at h
  | some asn =>
      rw [hA] at h
      cases hC : lookup_city c with
      | none =>
          rw [hC] at h
          simp at h
      | some city =>
          rw [hC] at h
          injection h with h
          subst h
          rfl

theorem c7_witness :
    lookup (IpAddr.v4 4 3 2 1)
        (Except.error (MaxMindDBError.IoError "io"))
        (Except.error (MaxMindDBError.IoError "io")) =
      some { address := IpAddr.v4 4 3 2 1, asn := 0, asn_organization := "-",
             city := "-", continent := ("-", "-"), country := ("-", "-"),
             subdivisions := ("-", "-"), summary := "-,-/-; - (0);" } ∧
    LookupResult.address
        { address := IpAddr.v4 4 3 2 1, asn := 0, asn_organization := "-",
          city := "-", continent := ("-", "-"), country := ("-", "-"),
          subdivisions := ("-", "-"), summary := "-,-/-; - (0);" } =
      IpAddr.v4 4 3 2 1 :=
  ⟨rfl,
   c7_address_echo_on_result (IpAddr.v4 4 3 2 1)
     (Except.error (MaxMindDBError.IoError "io"))
     (Except.error (MaxMindDBError.IoError "io"))
     { address := IpAddr.v4 4 3 2 1, asn := 0, asn_organization := "-",
       city := "-", continent := ("-", "-"), country := ("-", "-"),
       subdivisions := ("-", "-"), summary := "-,-/-; - (0);" } rfl⟩

/-- C8: the staleness threshold of the healthcheck is the constant
604800 * 2 + 86400 = 1296000 seconds, and a database is judged stale
exactly when its age (now minus build epoch) is greater than or equal
to that threshold; in particular an age of exactly 1296000 is stale
and an age of 1295999 is fresh. -/
theorem c8_stale_threshold_boundary :
    maximum_stale_ttl = 604800 * 2 + 86400 ∧
    maximum_stale_ttl = 1296000 ∧
    (∀ (now : Int) (fmt : Int → String) (db : Metadata),
      ((healthcheck_loop now fmt [db]).1 = false ↔
        now - (db.build_epoch : Int) ≥ 1296000)) ∧
    (healthcheck_loop 1296000 (fun _ => "-")
        [{ binary_format_major_version := 2, binary_format_minor_version := 0,
           build_epoch := 0, database_type := "GeoLite2-ASN",
           node_count := 0, record_size := 0 }]).1 = false ∧
    (healthcheck_loop 1295999 (fun _ => "-")
        [{ binary_format_major_version := 2, binary_format_minor_version := 0,
           build_epoch := 0, database_type := "GeoLite2-ASN",
           node_count := 0, record_size := 0 }]).1 = true := by
  refine ⟨by decide, by decide, ?_, by decide, by decide⟩
  intro now fmt db
  unfold healthcheck_loop
  by_cases h : now - (db.build_epoch : Int) ≥ maximum_stale_ttl
  · rw [if_pos h]
    simp only [maximum_stale_ttl] at h
    exact iff_of_true rfl (by omega)
  · rw [if_neg h]
    simp only [maximum_stale_ttl] at h
    exact iff_of_false (by simp [healthcheck_loop]) (by omega)

/-- C9: the healthcheck loop walks the metadata sequence in the given
order and short-circuits on the first stale database: when every
database before it is fresh and a database is stale, the result is
unhealthy with the staleness reason naming that database and its
rendered build date, independently of whatever follows it in the
sequence; when every database of the sequence is fresh the result is
exactly healthy with the fixed passed message. -/
theorem c9_first_stale_wins_short_circuit :
    (∀ (now : Int) (fmt : Int → String) (pre : List Metadata)
      (db : Metadata) (rest : List Metadata),
      (∀ d ∈ pre, now - (d.build_epoch : Int) < maximum_stale_ttl) →
      now - (db.build_epoch : Int) ≥ maximum_stale_ttl →
      healthcheck_loop now fmt (pre ++ db :: rest) =
        (false, "Database is stale (" ++ db.database_type ++
          " build date: " ++ fmt (db.build_epoch : Int) ++ ")")) ∧
    (∀ (now : Int) (fmt : Int → String) (l : List Metadata),
      (∀ d ∈ l, now - (d.build_epoch : Int) < maximum_stale_ttl) →
      healthcheck_loop now fmt l = (true, "Check of databases passed")) := by
  constructor
  · intro now fmt pre db rest hfresh hstale
    induction pre with
    | nil =>
        simp only [List.nil_append, healthcheck_loop]
        rw [if_pos hstale]
    | cons d pre ih =>
        have hd : now - (d.build_epoch : Int) < maximum_stale_ttl :=
          hfresh d (List.mem_cons_self d pre)
        simp only [List.cons_append, healthcheck_loop]
        rw [if_neg (not_le.mpr hd)]
        exact ih fun x hx => hfresh x (List.mem_cons_of_mem d hx)
  · intro now fmt l hfresh
    induction l with
    | nil => rfl
    | cons d l ih =>
        have hd : now - (d.build_epoch : Int) < maximum_stale_ttl :=
          hfresh d (List.mem_cons_self d l)
        simp only [healthcheck_loop]
        rw [if_neg (not_le.mpr hd)]
        exact ih fun x hx => hfresh x (List.mem_cons_of_mem d hx)

theorem c9_witness :
    healthcheck_loop 2000000 (fun _ => "T")
        [{ binary_format_major_version := 2, binary_format_minor_version := 0,
           build_epoch := 1000000, database_type := "A",
           node_count := 0, record_size := 0 },
         { binary_format_major_version := 2, binary_format_minor_version := 0,
           build_epoch := 0, database_type := "B",
           node_count := 0, record_size := 0 },
         { binary_format_major_version := 2, binary_format_minor_version := 0,
           build_epoch := 0, database_type := "C",
           node_count := 0, record_size := 0 }] =
      (false, "Database is stale (B build date: T)") ∧
    healthcheck_loop 2000000 (fun _ => "T")
        [{ binary_format_major_version := 2, binary_format_minor_version := 0,
           build_epoch := 1000000, database_type := "A",
           node_count := 0, record_size := 0 }] =
      (true, "Check of databases passed") :=
  ⟨c9_first_stale_wins_short_circuit.1 2000000 (fun _ => "T")
     [{ binary_format_major_version := 2, binary_format_minor_version := 0,
        build_epoch := 1000000, database_type := "A",
        node_count := 0, record_size := 0 }]
     { binary_format_major_version := 2, binary_format_minor_version := 0,
       build_epoch := 0, database_type := "B",
       node_count := 0, record_size := 0 }
     [{ binary_format_major_version := 2, binary_format_minor_version := 0,
        build_epoch := 0, database_type := "C",
        node_count := 0, record_size := 0 }]
     (by decide) (by decide),
   c9_first_stale_wins_short_circuit.2 2000000 (fun _ => "T")
     [{ binary_format_major_version := 2, binary_format_minor_version := 0,
        build_epoch := 1000000, database_type := "A",
        node_count := 0, record_size := 0 }]
     (by decide)⟩

/-- C10: the healthcheck checks the ASN metadata before the City
metadata: whenever the ASN database is stale the response reports the
ASN staleness reason no matter the state of the City database, and a
stale City database is reported exactly when the ASN database is
fresh. -/
theorem c10_asn_checked_before_city :
    (∀ (a c : Metadata) (now : Int) (fmt : Int → String),
      now - (a.build_epoch : Int) ≥ maximum_stale_ttl →
      healthcheck a c now fmt =
        { is_healthy := false,
          reason := "Database is stale (" ++ a.database_type ++
            " build date: " ++ fmt (a.build_epoch : Int) ++ ")" }) ∧
    (∀ (a c : Metadata) (now : Int) (fmt : Int → String),
      now - (a.build_epoch : Int) < maximum_stale_ttl →
      now - (c.build_epoch : Int) ≥ maximum_stale_ttl →
      healthcheck a c now fmt =
        { is_healthy := false,
          reason := "Database is stale (" ++ c.database_type ++
            " build date: " ++ fmt (c.build_epoch : Int) ++ ")" }) := by
  constructor
  · intro a c now fmt ha
    simp only [healthcheck, healthcheck_loop]
    rw [if_pos ha]
  · intro a c now fmt ha hc
    simp only [healthcheck, healthcheck_loop]
    rw [if_neg (not_le.mpr ha), if_pos hc]

theorem c10_witness :
    healthcheck
        { binary_format_major_version := 2, binary_format_minor_version := 0,
          build_epoch := 0, database_type := "GeoLite2-ASN",
          node_count := 0, record_size := 0 }
        { binary_format_major_version := 2, binary_format_minor_version := 0,
          build_epoch := 0, database_type := "GeoLite2-City",
          node_count := 0, record_size := 0 }
        2000000 (fun _ => "T") =
      { is_healthy := false,
        reason := "Database is stale (GeoLite2-ASN build date: T)" } ∧
    healthcheck
        { binary_format_major_version := 2, binary_format_minor_version := 0,
          build_epoch := 1000000, database_type := "GeoLite2-ASN",
          node_count := 0, record_size := 0 }
        { binary_format_major_version := 2, binary_format_minor_version := 0,
          build_epoch := 0, database_type := "GeoLite2-City",
          node_count := 0, record_size := 0 }
        2000000 (fun _ => "T") =
      { is_healthy := false,
        reason := "Database is stale (GeoLite2-City build date: T)" } :=
  ⟨c10_asn_checked_before_city.1
     { binary_format_major_version := 2, binary_format_minor_version := 0,
       build_epoch := 0, database_type := "GeoLite2-ASN",
       node_count := 0, record_size := 0 }
     { binary_format_major_version := 2, binary_format_minor_version := 0,
       build_epoch := 0, database_type := "GeoLite2-City",
       node_count := 0, record_size := 0 }
     2000000 (fun _ => "T") (by decide),
   c10_asn_checked_before_city.2
     { binary_format_major_version := 2, binary_format_minor_version := 0,
       build_epoch := 1000000, database_type := "GeoLite2-ASN",
       node_count := 0, record_size := 0 }
     { binary_format_major_version := 2, binary_format_minor_version := 0,
       build_epoch := 0, database_type := "GeoLite2-City",
       node_count := 0, record_size := 0 }
     2000000 (fun _ => "T") (by decide) (by decide)⟩

end GeoWidget
